import Mathlib

set_option maxRecDepth 8000

/-!  Shallow embedding of the resilient REST client layer of the
`gh_code_scanning` package (`rest.py`, `utils.py`, `auth.py`,
`exceptions.py`, `__init__.py`).  Python strings are Lean `String`s, JSON
documents are the `Json` inductive below, float sleep durations are
modelled as rationals, and wall-clock time is an explicit `now : Nat`
parameter (the value of `int(time.time())`, assumed stable across one
attempt-loop execution).  -/

/-- JSON values as parsed by `requests` (`resp.json()`).  Numbers are
modelled as integers; the behaviour under study never exercises float
bodies.  -/
inductive Json where
  | null
  | bool (b : Bool)
  | num (n : Int)
  | str (s : String)
  | arr (elems : List Json)
  | obj (fields : List (String × Json))

/-- Character class of the regex `\s` and of `str.strip()` (ASCII part). -/
def regexSpace (c : Char) : Bool :=
  c = ' ' || c = '\t' || c = '\n' || c = '\r' || c = '\x0b' || c = '\x0c'

/-- Boolean test that the first list is an initial segment of the second. -/
def isPreOf : List Char → List Char → Bool
  | [], _ => true
  | _ :: _, [] => false
  | a :: as, b :: bs => a == b && isPreOf as bs

/-- Boolean substring containment on character lists (Python `in`). -/
def hasSubSeq (needle : List Char) : List Char → Bool
  | [] => needle.isEmpty
  | c :: rest => isPreOf needle (c :: rest) || hasSubSeq needle rest

/-- Python `needle in hay` for strings. -/
def strContainsSub (hay needle : String) : Bool :=
  hasSubSeq needle.toList hay.toList

/-- Python `s.startswith(pre)`. -/
def strStarts (s pre : String) : Bool :=
  isPreOf pre.toList s.toList

/-- Python `s.isdigit()` (ASCII digits; nonempty). -/
def pyIsDigit (s : String) : Bool :=
  !s.isEmpty && s.toList.all Char.isDigit

/-- Python `int(s)` on a nonempty decimal digit string. -/
def pyIntOfDigits (s : String) : Nat :=
  s.toList.foldl (fun a c => a * 10 + (c.toNat - 48)) 0

/-- Python `s.strip()` on a character list. -/
def pyStripChars (cs : List Char) : List Char :=
  ((cs.dropWhile regexSpace).reverse.dropWhile regexSpace).reverse

/-- Python `s.strip()`. -/
def pyStripStr (s : String) : String :=
  String.mk (pyStripChars s.toList)

/-- Python `s.rstrip("/")`. -/
def rstripSlash (s : String) : String :=
  String.mk ((s.toList.reverse.dropWhile (fun c => c == '/')).reverse)

/-- Python `a or b` on strings (empty string is falsy). -/
def pyOrStr (a b : String) : String :=
  if a.isEmpty then b else a

/-- Python `s.split(",")` on a character list: splits at every comma,
keeping empty pieces, and yields one piece for the empty input. -/
def splitComma : List Char → List (List Char)
  | [] => [[]]
  | c :: rest =>
    match splitComma rest with
    | [] => [[]]
    | g :: gs => if c = ',' then [] :: g :: gs else (c :: g) :: gs

/-- Python `dict` assignment `d[k] = v` on an association list: an existing
key keeps its position and gets the new value, a new key is appended. -/
def dictSet : List (String × String) → String → String → List (String × String)
  | [], k, v => [(k, v)]
  | (k0, v0) :: rest, k, v =>
    if k0 = k then (k, v) :: rest else (k0, v0) :: dictSet rest k v

/-- Python `d.get(k)` on an association list. -/
def dictGet : List (String × String) → String → Option String
  | [], _ => none
  | (k0, v0) :: rest, k => if k0 = k then some v0 else dictGet rest k

/-- Python `d.get(k)` for JSON object fields. -/
def jsonFind : List (String × Json) → String → Option Json
  | [], _ => none
  | (k0, v0) :: rest, k => if k0 = k then some v0 else jsonFind rest k

/-- The apostrophe character, used by the Python `repr` of strings. -/
def pyQuote : String :=
  String.singleton (Char.ofNat 39)

mutual

/-- Python `repr` of a parsed JSON value (string escaping elided: the
behaviour under study only applies `str` to scalar message fields). -/
def pyRepr : Json → String
  | .null => "None"
  | .bool true => "True"
  | .bool false => "False"
  | .num n => toString n
  | .str s => pyQuote ++ s ++ pyQuote
  | .arr xs => "[" ++ pyReprSeq xs ++ "]"
  | .obj fs => "\x7b" ++ pyReprFields fs ++ "\x7d"

/-- Comma-separated `repr`s of the elements of a Python list. -/
def pyReprSeq : List Json → String
  | [] => ""
  | [x] => pyRepr x
  | x :: y :: rest => pyRepr x ++ ", " ++ pyReprSeq (y :: rest)

/-- Comma-separated `repr`s of the items of a Python dict. -/
def pyReprFields : List (String × Json) → String
  | [] => ""
  | [(k, v)] => pyQuote ++ k ++ pyQuote ++ ": " ++ pyRepr v
  | (k, v) :: y :: rest =>
    pyQuote ++ k ++ pyQuote ++ ": " ++ pyRepr v ++ ", " ++ pyReprFields (y :: rest)

end

/-- Python `str` applied to a parsed JSON value. -/
def pyStr : Json → String
  | .str s => s
  | v => pyRepr v

/-- An HTTP response as the client observes it: status code, raw text
body, the result of `resp.json()` (`none` when the body does not parse as
JSON), and the individual headers the client reads (requests header lookup
is case-insensitive; each field stands for one `headers.get` call). -/
structure Response where
  status : Nat
  text : String := ""
  json : Option Json := none
  xRateLimitRemaining : Option String := none
  xRateLimitReset : Option String := none
  xRequestId : Option String := none
  linkHeader : Option String := none

/-- utils.is_absolute_url. -/
def is_absolute_url (s : String) : Bool :=
  strStarts s "https://" || strStarts s "http://"

/-- One application of the anchored regex match
`re.match(r'<([^>]+)>\s*;\s*rel="([^"]+)"', p)` from
utils.parse_link_header, returning the two captured groups. -/
def matchLinkPart (cs : List Char) : Option (String × String) :=
  match cs with
  | '<' :: rest =>
    let url := rest.takeWhile (fun c => c != '>')
    let r1 := rest.dropWhile (fun c => c != '>')
    match r1 with
    | '>' :: r2 =>
      if url.isEmpty then none
      else
        match (r2.dropWhile regexSpace) with
        | ';' :: r4 =>
          match (r4.dropWhile regexSpace) with
          | 'r' :: 'e' :: 'l' :: '=' :: '"' :: r6 =>
            let rel := r6.takeWhile (fun c => c != '"')
            let r7 := r6.dropWhile (fun c => c != '"')
            match r7 with
            | '"' :: _ =>
              if rel.isEmpty then none else some (String.mk url, String.mk rel)
            | _ => none
          | _ => none
        | _ => none
    | _ => none
  | _ => none

/-- utils.parse_link_header: split the header on commas, strip each part,
prefix-match the link regex and collect `rel → url` into a dict. -/
def parse_link_header (link : String) : List (String × String) :=
  if link.isEmpty then []
  else
    (splitComma link.toList).foldl
      (fun out p =>
        match matchLinkPart (pyStripChars p) with
        | some (url, rel) => dictSet out rel url
        | none => out)
      []

/-- utils.safe_json: `resp.json()` with parse failures mapped to `None`;
the `Response` model carries the parse result directly. -/
def safe_json (r : Response) : Option Json :=
  r.json

/-- utils.req_id: the `X-GitHub-Request-Id` header. -/
def req_id (r : Response) : Option String :=
  r.xRequestId

/-- utils.is_rate_limited: the `X-RateLimit-Remaining` header is a digit
string equal to zero, or the JSON body is a dict whose `message` field
(lower-cased `str`) contains `"rate limit"`. -/
def is_rate_limited (r : Response) : Bool :=
  (match r.xRateLimitRemaining with
   | some remaining => pyIsDigit remaining && pyIntOfDigits remaining == 0
   | none => false) ||
  (match safe_json r with
   | some (.obj fields) =>
     strContainsSub (pyStr ((jsonFind fields "message").getD (.str ""))).toLower "rate limit"
   | _ => false)

/-- utils.try_get_rate_limit_reset: the `X-RateLimit-Reset` header when it
is a nonempty digit string, as an integer epoch. -/
def try_get_rate_limit_reset (r : Response) : Option Nat :=
  match r.xRateLimitReset with
  | some reset => if !reset.isEmpty && pyIsDigit reset then some (pyIntOfDigits reset) else none
  | none => none

/-- utils.sleep_backoff computes `min(max_s, base_s * (2 ** attempt))`;
the model records the duration instead of sleeping. -/
def sleep_backoff (attempt : Nat) (base_s max_s : ℚ) : ℚ :=
  min max_s (base_s * 2 ^ attempt)

/-- The kinds of the exception taxonomy of exceptions.py other than the
rate-limit one: GitHubAuthError (401), GitHubNotFoundError (404) and the
generic GitHubApiError base. -/
inductive ErrKind where
  | auth
  | notFound
  | generic

/-- The data carried by a GitHubApiError (also by its GitHubAuthError /
GitHubNotFoundError subclasses, distinguished by `kind`): status code,
message, parsed JSON payload and upstream request id. -/
structure ApiError where
  kind : ErrKind
  status : Nat
  message : String
  response_json : Option Json
  request_id : Option String

/-- Everything `request` can raise: a GitHubRateLimitError (with its extra
nullable `reset_epoch`), a GitHubApiError (any kind), a `requests`
network-level error (timeout / connection error, whose payload the client
never inspects), or the defensive `RuntimeError` after the attempt loop. -/
inductive GhError where
  | rateLimit (status : Nat) (message : String) (reset_epoch : Option Nat)
      (response_json : Option Json) (request_id : Option String)
  | api (e : ApiError)
  | network
  | runtime

/-- The configuration fields of the GitHubRestClient dataclass (rest.py).
The float fields `backoff_base_s` / `max_backoff_s` are rationals. -/
structure GitHubRestClient where
  token : String := ""
  base_url : String := "https://api.github.com"
  api_version : String := "2022-11-28"
  timeout_s : Nat := 30
  max_retries : Nat := 4
  backoff_base_s : ℚ := 4 / 5
  max_backoff_s : ℚ := 10
  user_agent : String := "code-scanning-api-wrapper/1.0"

/-- GitHubRestClient._build_url. -/
def build_url (c : GitHubRestClient) (path_or_url : String) : String :=
  if is_absolute_url path_or_url then path_or_url
  else rstripSlash c.base_url ++ path_or_url

/-- Message extraction of GitHubRestClient._raise_for_status (rest.py
lines 156-160): `str` of the JSON `message` field when the body is a dict
containing one, else the first 200 characters of the raw text. -/
def extract_message (r : Response) : String :=
  match safe_json r with
  | some (.obj fields) =>
    match jsonFind fields "message" with
    | some v => pyStr v
    | none => r.text.take 200
  | _ => r.text.take 200

/-- GitHubRestClient._raise_for_status (rest.py lines 155-169): message
and request-id extraction, and the 401 / 404 / generic split, with the
`or`-fallback default messages. -/
def raise_for_status (r : Response) : ApiError :=
  let payload := safe_json r
  let msg := extract_message r
  let rid := req_id r
  if r.status = 401 then ⟨.auth, r.status, pyOrStr msg "Unauthorized", payload, rid⟩
  else if r.status = 404 then ⟨.notFound, r.status, pyOrStr msg "Not Found", payload, rid⟩
  else ⟨.generic, r.status, pyOrStr msg "Request failed", payload, rid⟩

/-- What one received response does inside the `try` block of `request`
(rest.py lines 69-92): either it is returned, or one of the exceptions is
raised. -/
inductive StepOut where
  | ok (r : Response)
  | rateLimited (status : Nat) (message : String) (reset_epoch : Option Nat)
      (response_json : Option Json) (request_id : Option String)
  | apiErr (e : ApiError)

/-- The body of the `try` block of `request` applied to a received
response: 429 and rate-limited 403 raise GitHubRateLimitError, any other
status ≥ 400 goes through `raise_for_status`, and anything else is
returned as the success result. -/
def classifyResponse (r : Response) : StepOut :=
  if r.status = 429 then
    .rateLimited r.status "Rate limit hit (429)." (try_get_rate_limit_reset r)
      (safe_json r) (req_id r)
  else if r.status = 403 ∧ is_rate_limited r = true then
    .rateLimited r.status "Rate limit exceeded (403)." (try_get_rate_limit_reset r)
      (safe_json r) (req_id r)
  else if r.status ≥ 400 then .apiErr (raise_for_status r)
  else .ok r

/-- What the transport produces for one attempt: a raised
`requests.Timeout` / `requests.ConnectionError`, or a response. -/
inductive AttemptOutcome where
  | netError
  | response (r : Response)

/-- What `request` produces overall. -/
inductive ReqOutcome where
  | ok (r : Response)
  | err (e : GhError)

/-- The overall result of one `request` call together with the durations
of the `time.sleep` calls it performed, in order. -/
structure RunResult where
  outcome : ReqOutcome
  sleeps : List ℚ

/-- The attempt loop of GitHubRestClient.request (rest.py lines 59-119).
`outs` maps the attempt index to what the transport produced on that
attempt; `fuel` is the number of loop iterations left (the loop runs with
`fuel = max_retries + 1` from `attempt = 0`); `lastErr` is the `last_err`
variable; `sleeps` accumulates sleep durations.  When fuel runs out the
loop has fallen through: `last_err` is re-raised when set, else the
defensive RuntimeError is raised. -/
def requestGo (c : GitHubRestClient) (now : Nat) (outs : Nat → AttemptOutcome) :
    Nat → Nat → Option GhError → List ℚ → RunResult
  | 0, _, lastErr, sleeps => ⟨.err (lastErr.getD .runtime), sleeps⟩
  | fuel + 1, attempt, lastErr, sleeps =>
    match outs attempt with
    | .netError =>
      if attempt ≥ c.max_retries then ⟨.err .network, sleeps⟩
      else
        requestGo c now outs fuel (attempt + 1) (some .network)
          (sleeps ++ [sleep_backoff attempt c.backoff_base_s c.max_backoff_s])
    | .response r =>
      match classifyResponse r with
      | .ok r0 => ⟨.ok r0, sleeps⟩
      | .rateLimited st msg reset payload rid =>
        match reset with
        | some re =>
          if re - now ≤ 15 then
            requestGo c now outs fuel (attempt + 1) lastErr
              (sleeps ++ [((re - now : Nat) + 1 : ℚ)])
          else ⟨.err (.rateLimit st msg reset payload rid), sleeps⟩
        | none => ⟨.err (.rateLimit st msg reset payload rid), sleeps⟩
      | .apiErr e =>
        if (e.status = 500 ∨ e.status = 502 ∨ e.status = 503 ∨ e.status = 504)
            ∧ attempt < c.max_retries then
          requestGo c now outs fuel (attempt + 1) (some (.api e))
            (sleeps ++ [sleep_backoff attempt c.backoff_base_s c.max_backoff_s])
        else ⟨.err (.api e), sleeps⟩

/-- GitHubRestClient.request: run the attempt loop over
`range(max_retries + 1)` starting with no recorded error and no sleeps. -/
def request (c : GitHubRestClient) (now : Nat) (outs : Nat → AttemptOutcome) : RunResult :=
  requestGo c now outs (c.max_retries + 1) 0 none []

/-- The `next` link of a response as paginate computes it:
`parse_link_header(resp.headers.get("Link", "")).get("next")`. -/
def nextLinkOf (r : Response) : Option String :=
  dictGet (parse_link_header (r.linkHeader.getD "")) "next"

/-- How one `paginate` call ends: normal exhaustion after yielding
`items`, a structural GitHubApiError after yielding `items`, a JSON decode
failure of `resp.json()` (raised unhandled), or — a model artifact — the
page-count fuel ran out. -/
inductive PgResult where
  | done (items : List Json)
  | failed (items : List Json) (e : ApiError)
  | decodeError (items : List Json)
  | fuelOut (items : List Json)

/-- The `while next_url` loop of GitHubRestClient.paginate (rest.py lines
121-153).  `fetch url params` is the response the inner `request` call
returned for that URL and query-parameter dict (page fetches are modelled
at the point where `request` returned successfully); `acc` is the sequence
of items yielded so far. -/
def paginateGo (fetch : String → List (String × String) → Response) :
    Nat → String → List (String × String) → List Json → PgResult
  | 0, _, _, acc => .fuelOut acc
  | fuel + 1, url, ps, acc =>
    let r := fetch url ps
    match r.json with
    | none => .decodeError acc
    | some d =>
      match d with
      | .arr items =>
        let acc2 := acc ++ items
        match nextLinkOf r with
        | some nxt =>
          if nxt.isEmpty then .done acc2
          else paginateGo fetch fuel nxt [] acc2
        | none => .done acc2
      | _ =>
        .failed acc ⟨.generic, r.status, "Expected list response for paginated endpoint.",
          some d, req_id r⟩

/-- GitHubRestClient.paginate: start the loop at the given path with a
copy of the caller's params and nothing yielded yet. -/
def paginate (fetch : String → List (String × String) → Response)
    (fuel : Nat) (path : String) (params : List (String × String)) : PgResult :=
  paginateGo fetch fuel path params []

/-- The result of the `subprocess.run(["gh", "auth", "token", ...])` call
in auth.get_token_from_gh_cli: captured stdout on exit code 0, or any
failure (nonzero exit with check=True, missing binary, any exception). -/
inductive SubprocResult where
  | ok (stdout : String)
  | failed

/-- Python `a or b` where both operands are `str | None` (both `None` and
the empty string are falsy; the second operand is returned as-is when the
first is falsy). -/
def pyOrOpt (a b : Option String) : Option String :=
  match a with
  | some s => if s.isEmpty then b else some s
  | none => b

/-- Truthiness of a `str | None` value. -/
def pyTruthyOpt : Option String → Bool
  | none => false
  | some s => !s.isEmpty

/-- auth.get_token_from_env: `os.getenv("GITHUB_TOKEN") or
os.getenv("GH_TOKEN")`, over an abstract environment. -/
def get_token_from_env (env : String → Option String) : Option String :=
  pyOrOpt (env "GITHUB_TOKEN") (env "GH_TOKEN")

/-- auth.get_token_from_gh_cli: strip the helper's stdout and return it,
mapping a failed subprocess or empty stripped output to `None`. -/
def get_token_from_gh_cli (proc : SubprocResult) : Option String :=
  match proc with
  | .failed => none
  | .ok out =>
    let token := pyStripStr out
    if token.isEmpty then none else some token

/-- Token resolution inside create_clients (__init__.py lines 10-27):
`get_token_from_env() or get_token_from_gh_cli(...)`, raising RuntimeError
when the result is falsy.  The Bool records whether the gh subprocess was
invoked (Python `or` is short-circuiting). -/
def create_clients_token (env : String → Option String) (proc : SubprocResult) :
    Except String String × Bool :=
  let envTok := get_token_from_env env
  if pyTruthyOpt envTok then (.ok (envTok.getD ""), false)
  else
    let token := pyOrOpt envTok (get_token_from_gh_cli proc)
    if pyTruthyOpt token then (.ok (token.getD ""), true)
    else
      (.error "No GitHub token found. Set GITHUB_TOKEN/GH_TOKEN or authenticate with `gh auth login`.",
        true)

/-- A chain of pages as served to `paginate`: starting from `url` fetched
with `ps`, the server answers with a JSON array per page, each non-final
page's Link header carries a nonempty `next` relation reaching the next
page (which, as in the loop, is fetched with an empty parameter dict), and
the final page has no `next` relation. -/
def ChainOK (fetch : String → List (String × String) → Response) :
    String → List (String × String) → List (List Json) → Prop
  | _, _, [] => False
  | u, ps, [items] =>
    (fetch u ps).json = some (.arr items) ∧ nextLinkOf (fetch u ps) = none
  | u, ps, items :: items2 :: rest =>
    ∃ nxt, (fetch u ps).json = some (.arr items) ∧
      nextLinkOf (fetch u ps) = some nxt ∧ nxt ≠ "" ∧
      ChainOK fetch nxt [] (items2 :: rest)

/-! ## Theorems -/

/-- Helper: `takeWhile` runs through an all-true block up to the first
falsifying element. -/
theorem takeWhile_append_all {p : Char → Bool} {xs : List Char} {y : Char}
    (ys : List Char) (h : ∀ c ∈ xs, p c = true) (hy : p y = false) :
    (xs ++ y :: ys).takeWhile p = xs := by
  induction xs with
  | nil => simp [List.takeWhile, hy]
  | cons a as ih =>
    have ha : p a = true := h a (by simp)
    simp only [List.cons_append, List.takeWhile_cons, ha]
    simp [ih fun c hc => h c (by simp [hc])]

/-- Helper: `dropWhile` drops an all-true block up to the first
falsifying element. -/
theorem dropWhile_append_all {p : Char → Bool} {xs : List Char} {y : Char}
    (ys : List Char) (h : ∀ c ∈ xs, p c = true) (hy : p y = false) :
    (xs ++ y :: ys).dropWhile p = y :: ys := by
  induction xs with
  | nil => simp [List.dropWhile, hy]
  | cons a as ih =>
    have ha : p a = true := h a (by simp)
    simp only [List.cons_append, List.dropWhile_cons, ha]
    exact ih fun c hc => h c (by simp [hc])


/-- C10: for every path that does not start with "http://" or "https://",
the request URL is exactly the configured base URL with trailing "/"
stripped, concatenated directly with the path (so a relative path without
a leading "/" gets no separator between host and path), while a path
starting with "http://" or "https://" is used verbatim. -/
theorem c10_build_url (c : GitHubRestClient) (p1 p2 : String)
    (h1 : is_absolute_url p1 = false)
    (h2 : strStarts p2 "https://" = true ∨ strStarts p2 "http://" = true) :
    build_url c p1 = rstripSlash c.base_url ++ p1 ∧
    build_url c p2 = p2 ∧
    build_url {} "repos/x" = "https://api.github.comrepos/x" ∧
    build_url {} "/repos/x" = "https://api.github.com/repos/x" := by
  refine ⟨?_, ?_, ?_, ?_⟩
  · simp [build_url, h1]
  · have habs : is_absolute_url p2 = true := by
      cases h2 with
      | inl h => simp [is_absolute_url, h]
      | inr h => simp [is_absolute_url, h]
    simp [build_url, habs]
  · decide
  · decide

/-- Witness for c10_build_url at a relative path without a leading slash
and at an absolute URL. -/
theorem c10_build_url_witness :
    build_url {} "repos/o/r" = rstripSlash ({} : GitHubRestClient).base_url ++ "repos/o/r" ∧
    build_url {} "https://x.example/z" = "https://x.example/z" ∧
    build_url {} "repos/x" = "https://api.github.comrepos/x" ∧
    build_url {} "/repos/x" = "https://api.github.com/repos/x" :=
  c10_build_url {} "repos/o/r" "https://x.example/z" (by decide) (Or.inl (by decide))

/-- C8: with the primary environment variable set to "abc", resolution
returns "abc" without invoking the gh subprocess; with both variables
unset or empty and a subprocess printing "xyz\n" on success, resolution
returns the stripped "xyz"; with both unset/empty and a failing subprocess
or empty stripped output, client construction fails with the fatal
no-credential error. -/
theorem c8_token_resolution
    (env1 env2 env3 : String → Option String) (proc1 proc2 proc3 : SubprocResult)
    (h1 : env1 "GITHUB_TOKEN" = some "abc")
    (h2a : env2 "GITHUB_TOKEN" = none ∨ env2 "GITHUB_TOKEN" = some "")
    (h2b : env2 "GH_TOKEN" = none ∨ env2 "GH_TOKEN" = some "")
    (h2c : proc2 = .ok "xyz\n")
    (h3a : env3 "GITHUB_TOKEN" = none ∨ env3 "GITHUB_TOKEN" = some "")
    (h3b : env3 "GH_TOKEN" = none ∨ env3 "GH_TOKEN" = some "")
    (h3c : proc3 = .failed ∨ ∃ out, proc3 = .ok out ∧ pyStripStr out = "") :
    create_clients_token env1 proc1 = (.ok "abc", false) ∧
    create_clients_token env2 proc2 = (.ok "xyz", true) ∧
    (create_clients_token env3 proc3).1 =
      .error "No GitHub token found. Set GITHUB_TOKEN/GH_TOKEN or authenticate with `gh auth login`." := by
  have habc : get_token_from_env env1 = some "abc" := by
    simp [get_token_from_env, h1, pyOrOpt, show "abc".isEmpty = false from by decide]
  have henv2 : get_token_from_env env2 = env2 "GH_TOKEN" := by
    rcases h2a with h | h <;>
      simp [get_token_from_env, h, pyOrOpt, show "".isEmpty = true from by decide]
  have henv3 : get_token_from_env env3 = env3 "GH_TOKEN" := by
    rcases h3a with h | h <;>
      simp [get_token_from_env, h, pyOrOpt, show "".isEmpty = true from by decide]
  refine ⟨?_, ?_, ?_⟩
  · simp [create_clients_token, habc, pyTruthyOpt,
      show "abc".isEmpty = false from by decide]
  · have hcli : get_token_from_gh_cli proc2 = some "xyz" := by
      simp [get_token_from_gh_cli, h2c, show pyStripStr "xyz\n" = "xyz" from by decide,
        show "xyz".isEmpty = false from by decide]
    rcases h2b with h | h <;>
      simp [create_clients_token, henv2, h, pyTruthyOpt, pyOrOpt, hcli,
        show "xyz".isEmpty = false from by decide, show "".isEmpty = true from by decide]
  · have hcli : get_token_from_gh_cli proc3 = none := by
      rcases h3c with h | ⟨out, hp, hs⟩
      · simp [get_token_from_gh_cli, h]
      · simp [get_token_from_gh_cli, hp, hs, show "".isEmpty = true from by decide]
    rcases h3b with h | h <;>
      simp [create_clients_token, henv3, h, pyTruthyOpt, pyOrOpt, hcli,
        show "".isEmpty = true from by decide]

/-- Witness for c8_token_resolution at concrete environments and
subprocess results. -/
theorem c8_token_resolution_witness :
    create_clients_token (fun k => if k = "GITHUB_TOKEN" then some "abc" else none)
        .failed = (.ok "abc", false) ∧
    create_clients_token (fun _ => none) (.ok "xyz\n") = (.ok "xyz", true) ∧
    (create_clients_token (fun k => if k = "GITHUB_TOKEN" then some "" else none)
        .failed).1 =
      .error "No GitHub token found. Set GITHUB_TOKEN/GH_TOKEN or authenticate with `gh auth login`." :=
  c8_token_resolution
    (fun k => if k = "GITHUB_TOKEN" then some "abc" else none)
    (fun _ => none)
    (fun k => if k = "GITHUB_TOKEN" then some "" else none)
    .failed (.ok "xyz\n") .failed
    (by decide) (Or.inl rfl) (Or.inl rfl) rfl
    (Or.inr (by decide)) (Or.inl rfl) (Or.inl rfl)

/-- Helper: Python `split(",")` leaves a comma-free string whole. -/
theorem splitComma_eq_single (cs : List Char) (h : ∀ c ∈ cs, c ≠ ',') :
    splitComma cs = [cs] := by
  induction cs with
  | nil => rfl
  | cons c rest ih =>
    have hr : splitComma rest = [rest] := ih fun x hx => h x (by simp [hx])
    have hc : ¬ c = ',' := h c (by simp)
    simp [splitComma, hr, hc]

/-- Helper: the link regex prefix-matches one well-formed relation with
arbitrary `\s*` runs around the semicolon. -/
theorem matchLinkPart_general (url rel ws1 ws2 : List Char)
    (hu : url ≠ []) (hug : ∀ c ∈ url, c ≠ '>')
    (hre : rel ≠ []) (hrq : ∀ c ∈ rel, c ≠ '"')
    (hw1 : ∀ c ∈ ws1, regexSpace c = true) (hw2 : ∀ c ∈ ws2, regexSpace c = true) :
    matchLinkPart
      ('<' :: (url ++ '>' :: (ws1 ++ ';' :: (ws2 ++
        'r' :: 'e' :: 'l' :: '=' :: '"' :: (rel ++ ['"']))))) =
      some (String.mk url, String.mk rel) := by
  have htw : (url ++ '>' :: (ws1 ++ ';' :: (ws2 ++
      'r' :: 'e' :: 'l' :: '=' :: '"' :: (rel ++ ['"'])))).takeWhile
        (fun c => c != '>') = url :=
    takeWhile_append_all _ (fun c hc => by simp [hug c hc]) (by decide)
  have hdw : (url ++ '>' :: (ws1 ++ ';' :: (ws2 ++
      'r' :: 'e' :: 'l' :: '=' :: '"' :: (rel ++ ['"'])))).dropWhile
        (fun c => c != '>') =
      '>' :: (ws1 ++ ';' :: (ws2 ++ 'r' :: 'e' :: 'l' :: '=' :: '"' :: (rel ++ ['"']))) :=
    dropWhile_append_all _ (fun c hc => by simp [hug c hc]) (by decide)
  have hws1 : (ws1 ++ ';' :: (ws2 ++
      'r' :: 'e' :: 'l' :: '=' :: '"' :: (rel ++ ['"']))).dropWhile regexSpace =
      ';' :: (ws2 ++ 'r' :: 'e' :: 'l' :: '=' :: '"' :: (rel ++ ['"'])) :=
    dropWhile_append_all _ hw1 (by decide)
  have hws2 : (ws2 ++ 'r' :: 'e' :: 'l' :: '=' :: '"' :: (rel ++ ['"'])).dropWhile regexSpace =
      'r' :: 'e' :: 'l' :: '=' :: '"' :: (rel ++ ['"']) :=
    dropWhile_append_all _ hw2 (by decide)
  have hrw : (rel ++ ['"']).takeWhile (fun c => c != '"') = rel :=
    takeWhile_append_all [] (fun c hc => by simp [hrq c hc]) (by decide)
  have hrd : (rel ++ ['"']).dropWhile (fun c => c != '"') = ['"'] :=
    dropWhile_append_all [] (fun c hc => by simp [hrq c hc]) (by decide)
  have hune : url.isEmpty = false := by
    cases url with
    | nil => exact absurd rfl hu
    | cons a l => rfl
  have hrne : rel.isEmpty = false := by
    cases rel with
    | nil => exact absurd rfl hre
    | cons a l => rfl
  simp only [matchLinkPart, htw, hdw, hws1, hws2, hrw, hrd, hune, hrne,
    Bool.false_eq_true, if_false]

/-- C7: parse_link_header maps the documented two-relation input to the
documented mapping; it returns the empty mapping for an empty or absent
header and for a malformed header, without raising; and for every
well-formed single relation it tolerates arbitrary whitespace runs around
the semicolon (multiple comma-separated relations are exercised by the
first conjunct). -/
theorem c7_parse_link_header (url rel ws1 ws2 : List Char)
    (hu : url ≠ []) (hug : ∀ c ∈ url, c ≠ '>') (huc : ∀ c ∈ url, c ≠ ',')
    (hre : rel ≠ []) (hrq : ∀ c ∈ rel, c ≠ '"') (hrc : ∀ c ∈ rel, c ≠ ',')
    (hw1 : ∀ c ∈ ws1, regexSpace c = true) (hw2 : ∀ c ∈ ws2, regexSpace c = true) :
    parse_link_header
        "<https://api.x.com/a?page=2>; rel=\"next\", <https://api.x.com/a?page=9>; rel=\"last\"" =
      [("next", "https://api.x.com/a?page=2"), ("last", "https://api.x.com/a?page=9")] ∧
    parse_link_header "" = [] ∧
    parse_link_header "this is not a link header; nor=one" = [] ∧
    parse_link_header (String.mk ('<' :: (url ++ '>' :: (ws1 ++ ';' :: (ws2 ++
        'r' :: 'e' :: 'l' :: '=' :: '"' :: (rel ++ ['"'])))))) =
      [(String.mk rel, String.mk url)] := by
  have hspace_ne : ∀ c : Char, regexSpace c = true → c ≠ ',' := by
    intro c h hc
    subst hc
    exact absurd h (by decide)
  refine ⟨by decide, by decide, by decide, ?_⟩
  set full : List Char := '<' :: (url ++ '>' :: (ws1 ++ ';' :: (ws2 ++
    'r' :: 'e' :: 'l' :: '=' :: '"' :: (rel ++ ['"'])))) with hfull
  have hcomma : ∀ c ∈ full, c ≠ ',' := by
    intro c hc
    rw [hfull] at hc
    simp only [List.mem_cons, List.mem_append, List.mem_singleton,
      List.not_mem_nil, or_false] at hc
    rcases hc with rfl | hc | rfl | hc | rfl | hc | rfl | rfl | rfl | rfl | rfl | hc | rfl
    · decide
    · exact huc c hc
    · decide
    · exact hspace_ne c (hw1 c hc)
    · decide
    · exact hspace_ne c (hw2 c hc)
    · decide
    · decide
    · decide
    · decide
    · decide
    · exact hrc c hc
    · decide
  have hne : ¬ (String.mk full).isEmpty = true := by
    rw [String.isEmpty_iff, String.ext_iff]
    simp [hfull]
  have hsplit : splitComma full = [full] := splitComma_eq_single full hcomma
  have hshape : full = ('<' :: (url ++ '>' :: (ws1 ++ ';' :: (ws2 ++
      'r' :: 'e' :: 'l' :: '=' :: '"' :: rel)))) ++ ['"'] := by
    simp [hfull]
  have hrev : full.reverse = '"' :: ('<' :: (url ++ '>' :: (ws1 ++ ';' :: (ws2 ++
      'r' :: 'e' :: 'l' :: '=' :: '"' :: rel)))).reverse := by
    rw [hshape]
    simp
  have h1 : full.dropWhile regexSpace = full := by
    rw [hfull]
    exact List.dropWhile_cons_of_neg (by decide)
  have h2 : full.reverse.dropWhile regexSpace = full.reverse := by
    rw [hrev]
    exact List.dropWhile_cons_of_neg (by decide)
  have hstrip : pyStripChars full = full := by
    calc pyStripChars full
        = ((full.dropWhile regexSpace).reverse.dropWhile regexSpace).reverse := rfl
      _ = (full.reverse.dropWhile regexSpace).reverse := by rw [h1]
      _ = full.reverse.reverse := by rw [h2]
      _ = full := List.reverse_reverse full
  have hmatch : matchLinkPart full = some (String.mk url, String.mk rel) := by
    rw [hfull]
    exact matchLinkPart_general url rel ws1 ws2 hu hug hre hrq hw1 hw2
  have htl : (String.mk full).toList = full := rfl
  simp only [parse_link_header, hne, if_false, htl, hsplit, List.foldl_cons,
    List.foldl_nil, hstrip, hmatch]
  rfl

/-- Witness for c7_parse_link_header with a one-character URL, relation
"next", and whitespace runs " " and " \t" around the semicolon. -/
theorem c7_parse_link_header_witness :
    parse_link_header
        "<https://api.x.com/a?page=2>; rel=\"next\", <https://api.x.com/a?page=9>; rel=\"last\"" =
      [("next", "https://api.x.com/a?page=2"), ("last", "https://api.x.com/a?page=9")] ∧
    parse_link_header "" = [] ∧
    parse_link_header "this is not a link header; nor=one" = [] ∧
    parse_link_header (String.mk ('<' :: (['u'] ++ '>' :: ([' '] ++ ';' :: ([' ', '\t'] ++
        'r' :: 'e' :: 'l' :: '=' :: '"' :: (['n', 'e', 'x', 't'] ++ ['"'])))))) =
      [(String.mk ['n', 'e', 'x', 't'], String.mk ['u'])] :=
  c7_parse_link_header ['u'] ['n', 'e', 'x', 't'] [' '] [' ', '\t']
    (by decide) (by decide) (by decide) (by decide) (by decide) (by decide)
    (by decide) (by decide)

/-- C6: whenever a page fetch in paginate yields a parsed JSON body that
is not a list, paginate raises a generic structural GitHubApiError whose
message indicates an expected-list response and which carries the
offending payload, yielding no items from that page (at any point of the
chain, and in particular on the first page). -/
theorem c6_paginate_expects_list
    (fetch : String → List (String × String) → Response)
    (fuel : Nat) (url path : String) (ps params : List (String × String))
    (acc : List Json) (d d0 : Json)
    (h1 : (fetch url ps).json = some d)
    (h2 : ∀ elems, d ≠ .arr elems)
    (h3 : (fetch path params).json = some d0)
    (h4 : ∀ elems, d0 ≠ .arr elems) :
    paginateGo fetch (fuel + 1) url ps acc =
      .failed acc ⟨.generic, (fetch url ps).status,
        "Expected list response for paginated endpoint.", some d, req_id (fetch url ps)⟩ ∧
    paginate fetch (fuel + 1) path params =
      .failed [] ⟨.generic, (fetch path params).status,
        "Expected list response for paginated endpoint.", some d0, req_id (fetch path params)⟩ := by
  have key : ∀ (u : String) (p : List (String × String)) (a : List Json) (dd : Json),
      (fetch u p).json = some dd → (∀ elems, dd ≠ Json.arr elems) →
      paginateGo fetch (fuel + 1) u p a =
        .failed a ⟨.generic, (fetch u p).status,
          "Expected list response for paginated endpoint.", some dd, req_id (fetch u p)⟩ := by
    intro u p a dd hj hna
    simp only [paginateGo]
    rw [hj]
    cases dd with
    | arr elems => exact absurd rfl (hna elems)
    | null => rfl
    | bool b => rfl
    | num n => rfl
    | str s => rfl
    | obj fs => rfl
  exact ⟨key url ps acc d h1 h2, key path params [] d0 h3 h4⟩

/-- Witness for c6_paginate_expects_list: a 200 response whose body is a
JSON object, mid-chain (with two items already yielded) and on the first
page. -/
theorem c6_paginate_expects_list_witness :
    paginateGo
        (fun _ _ =>
          { status := 200, json := some (.obj [("count", .num 3)]), xRequestId := some "REQ1" })
        1 "/a" [] [.num 7, .num 8] =
      .failed [.num 7, .num 8] ⟨.generic, 200,
        "Expected list response for paginated endpoint.",
        some (.obj [("count", .num 3)]), some "REQ1"⟩ ∧
    paginate
        (fun _ _ =>
          { status := 200, json := some (.obj [("count", .num 3)]), xRequestId := some "REQ1" })
        1 "/a" [("per_page", "100")] =
      .failed [] ⟨.generic, 200,
        "Expected list response for paginated endpoint.",
        some (.obj [("count", .num 3)]), some "REQ1"⟩ :=
  c6_paginate_expects_list
    (fun _ _ =>
      { status := 200, json := some (.obj [("count", .num 3)]), xRequestId := some "REQ1" })
    0 "/a" "/a" [] [("per_page", "100")] [.num 7, .num 8]
    (.obj [("count", .num 3)]) (.obj [("count", .num 3)])
    rfl (fun _ h => Json.noConfusion h)
    rfl (fun _ h => Json.noConfusion h)

/-- C5 counterexample: a 401 response whose JSON body has a present but
empty `message` field.  The claim says the raised message is the JSON
body's `message` field when present, but the code's `msg or
"Unauthorized"` fallback substitutes the default, so the raised message is
"Unauthorized", not the empty field value. -/
theorem c5_empty_message_counterexample :
    (raise_for_status
        { status := 401, text := "raw body text", json := some (.obj [("message", .str "")]) }).message =
      "Unauthorized" ∧
    jsonFind [("message", Json.str "")] "message" = some (.str "") ∧
    pyStr (.str "") ≠ "Unauthorized" ∧
    request {} 0
        (fun _ =>
          .response
            { status := 401, text := "raw body text", json := some (.obj [("message", .str "")]) }) =
      ⟨.err (.api ⟨.auth, 401, "Unauthorized", some (.obj [("message", .str "")]), none⟩), []⟩ :=
  ⟨rfl, rfl, by decide, rfl⟩

/-- C5 amended: for every failing response (status ≥ 400) not classified
as rate-limited, request raises GitHubAuthError on 401, GitHubNotFoundError
on 404 and a generic GitHubApiError otherwise, each carrying the status,
the parsed JSON payload (None when the body is not JSON), the request-id
header, and a message that is str() of the JSON body's `message` field
when the body is a dict containing one, else the first 200 characters of
the raw text — with a status-specific default ("Unauthorized" / "Not
Found" / "Request failed") substituted when that extracted message is
empty. -/
theorem c5_error_taxonomy (c : GitHubRestClient) (now : Nat)
    (r rNoJson r401 r404 rGen r2 : Response) (fields : List (String × Json)) (v : Json)
    (outs : Nat → AttemptOutcome)
    (hmsg : safe_json r = some (.obj fields))
    (hfind : jsonFind fields "message" = some v)
    (hnj : safe_json rNoJson = none)
    (h401 : r401.status = 401)
    (h404 : r404.status = 404)
    (hg1 : rGen.status ≠ 401) (hg2 : rGen.status ≠ 404)
    (hst : 400 ≤ r2.status)
    (hne429 : r2.status ≠ 429)
    (hne5 : r2.status ≠ 500 ∧ r2.status ≠ 502 ∧ r2.status ≠ 503 ∧ r2.status ≠ 504)
    (hnrl : r2.status = 403 → is_rate_limited r2 = false)
    (h0 : outs 0 = .response r2) :
    extract_message r = pyStr v ∧
    extract_message rNoJson = rNoJson.text.take 200 ∧
    raise_for_status r401 =
      ⟨.auth, r401.status, pyOrStr (extract_message r401) "Unauthorized",
        safe_json r401, req_id r401⟩ ∧
    raise_for_status r404 =
      ⟨.notFound, r404.status, pyOrStr (extract_message r404) "Not Found",
        safe_json r404, req_id r404⟩ ∧
    raise_for_status rGen =
      ⟨.generic, rGen.status, pyOrStr (extract_message rGen) "Request failed",
        safe_json rGen, req_id rGen⟩ ∧
    request c now outs = ⟨.err (.api (raise_for_status r2)), []⟩ := by
  refine ⟨?_, ?_, ?_, ?_, ?_, ?_⟩
  · simp only [extract_message, hmsg, hfind]
  · simp only [extract_message, hnj]
  · simp only [raise_for_status, h401, if_true]
  · simp [raise_for_status, h404]
  · simp only [raise_for_status, hg1, hg2, if_false]
  · have hcls : classifyResponse r2 = .apiErr (raise_for_status r2) := by
      have h403 : ¬ (r2.status = 403 ∧ is_rate_limited r2 = true) := by
        rintro ⟨ha, hb⟩
        rw [hnrl ha] at hb
        exact Bool.noConfusion hb
      simp only [classifyResponse, hne429, if_false, h403, hst, ge_iff_le, if_true]
    have hstatus : (raise_for_status r2).status = r2.status := by
      unfold raise_for_status
      split_ifs <;> rfl
    obtain ⟨h5a, h5b, h5c, h5d⟩ := hne5
    have hcond : ¬ (((raise_for_status r2).status = 500 ∨ (raise_for_status r2).status = 502 ∨
        (raise_for_status r2).status = 503 ∨ (raise_for_status r2).status = 504) ∧
        0 < c.max_retries) := by
      rw [hstatus]
      rintro ⟨h5, _⟩
      rcases h5 with h | h | h | h
      · exact h5a h
      · exact h5b h
      · exact h5c h
      · exact h5d h
    show requestGo c now outs (c.max_retries + 1) 0 none [] = _
    simp only [requestGo, h0, hcls, hcond, if_false]

/-- Witness for c5_error_taxonomy at concrete 422 / 500 / 401 / 404 / 409
responses. -/
theorem c5_error_taxonomy_witness :
    extract_message { status := 422, json := some (.obj [("message", .str "Validation Failed")]) } =
      pyStr (.str "Validation Failed") ∧
    extract_message { status := 500, text := "boom" } =
      ({ status := 500, text := "boom" } : Response).text.take 200 ∧
    raise_for_status { status := 401 } =
      ⟨.auth, ({ status := 401 } : Response).status,
        pyOrStr (extract_message { status := 401 }) "Unauthorized",
        safe_json { status := 401 }, req_id { status := 401 }⟩ ∧
    raise_for_status { status := 404 } =
      ⟨.notFound, ({ status := 404 } : Response).status,
        pyOrStr (extract_message { status := 404 }) "Not Found",
        safe_json { status := 404 }, req_id { status := 404 }⟩ ∧
    raise_for_status { status := 422, text := "unprocessable" } =
      ⟨.generic, ({ status := 422, text := "unprocessable" } : Response).status,
        pyOrStr (extract_message { status := 422, text := "unprocessable" }) "Request failed",
        safe_json { status := 422, text := "unprocessable" },
        req_id { status := 422, text := "unprocessable" }⟩ ∧
    request {} 0 (fun _ => .response { status := 409, text := "conflict" }) =
      ⟨.err (.api (raise_for_status { status := 409, text := "conflict" })), []⟩ :=
  c5_error_taxonomy {} 0
    { status := 422, json := some (.obj [("message", .str "Validation Failed")]) }
    { status := 500, text := "boom" }
    { status := 401 }
    { status := 404 }
    { status := 422, text := "unprocessable" }
    { status := 409, text := "conflict" }
    [("message", .str "Validation Failed")] (.str "Validation Failed")
    (fun _ => .response { status := 409, text := "conflict" })
    rfl rfl rfl rfl rfl (by decide) (by decide) (by decide) (by decide)
    (by decide) (by decide) rfl

/-- C9 counterexample: paginate turns a success Response (status 200 <
400) whose body is a JSON object into an ErrorClassification (a generic
GitHubApiError carrying status 200), so "a Response is classified only
when its status is ≥ 400" fails for the paginate operation the claim
cites. -/
theorem c9_success_classified_counterexample :
    paginate
        (fun _ _ => { status := 200, json := some (.obj [("message", .str "oops")]) })
        1 "/repos/o/r/code-scanning/alerts" [] =
      .failed [] ⟨.generic, 200, "Expected list response for paginated endpoint.",
        some (.obj [("message", .str "oops")]), none⟩ ∧
    (200 : Nat) < 400 :=
  ⟨rfl, by decide⟩

/-- C9 amended: within request, a Response is returned as a success
exactly when its status is < 400 (every response with status ≥ 400 is
classified into an error, and the classification is deterministic — a
function of the Response); paginate, however, additionally classifies a
response of any status, including success statuses, into a structural
GitHubApiError when its parsed body is not a list. -/
theorem c9_classification_invariant (r rD r0 : Response)
    (fetch : String → List (String × String) → Response)
    (url : String) (ps : List (String × String)) (fuel : Nat) (d : Json)
    (hdet : classifyResponse rD = .ok r0)
    (hj : (fetch url ps).json = some d)
    (hnl : ∀ elems, d ≠ .arr elems) :
    (classifyResponse r = .ok r ↔ r.status < 400) ∧
    r0 = rD ∧
    (∃ e : ApiError, paginate fetch (fuel + 1) url ps = .failed [] e ∧
      e.status = (fetch url ps).status) := by
  refine ⟨⟨?_, ?_⟩, ?_, ?_⟩
  · intro h
    by_contra hge
    unfold classifyResponse at h
    split_ifs at h with h1 h2 h3
    exact hge (by omega)
  · intro h
    have h1 : ¬ r.status = 429 := by omega
    have h3 : ¬ r.status ≥ 400 := by omega
    have h2 : ¬ (r.status = 403 ∧ is_rate_limited r = true) := by
      rintro ⟨h403, _⟩
      omega
    simp only [classifyResponse, h1, if_false, h2, h3]
  · unfold classifyResponse at hdet
    split_ifs at hdet
    cases hdet
    rfl
  · refine ⟨⟨.generic, (fetch url ps).status,
      "Expected list response for paginated endpoint.", some d, req_id (fetch url ps)⟩, ?_, rfl⟩
    simp only [paginate, paginateGo]
    rw [hj]
    cases d with
    | arr elems => exact absurd rfl (hnl elems)
    | null => rfl
    | bool b => rfl
    | num n => rfl
    | str s => rfl
    | obj fs => rfl

/-- Witness for c9_classification_invariant at a 200 response, an ok
classification of a 204 response, and an object-bodied page fetch. -/
theorem c9_classification_invariant_witness :
    (classifyResponse { status := 200, text := "okbody" } =
        .ok { status := 200, text := "okbody" } ↔
      ({ status := 200, text := "okbody" } : Response).status < 400) ∧
    ({ status := 204 } : Response) = { status := 204 } ∧
    (∃ e : ApiError,
      paginate (fun _ _ => { status := 200, json := some (.obj []) }) 1 "/x" [] =
        .failed [] e ∧
      e.status = ((fun (_ : String) (_ : List (String × String)) =>
        ({ status := 200, json := some (.obj []) } : Response)) "/x" []).status) :=
  c9_classification_invariant { status := 200, text := "okbody" } { status := 204 }
    { status := 204 }
    (fun _ _ => { status := 200, json := some (.obj []) }) "/x" [] 0 (.obj [])
    rfl rfl (fun _ h => Json.noConfusion h)

/-- C1: a 429 response, and a 403 response whose X-RateLimit-Remaining is
"0" or whose JSON message contains "rate limit" (case-insensitively),
raise GitHubRateLimitError carrying the X-RateLimit-Reset epoch when
disclosed; on a raised rate-limit error whose disclosed reset is at most
15 seconds away the loop sleeps (reset − now) + 1 seconds and retries the
next attempt instead of raising; when the reset is absent or more than 15
seconds away the error propagates to the caller immediately, with no
sleeps and no further attempts. -/
theorem c1_rate_limit_handling (c : GitHubRestClient) (now : Nat)
    (outs outs2 : Nat → AttemptOutcome) (fuel attempt : Nat)
    (lastErr : Option GhError) (sleeps : List ℚ)
    (r1 r2 r3 r4 : Response) (s : String)
    (st : Nat) (msg : String) (re : Nat) (pl : Option Json) (rid : Option String)
    (st2 : Nat) (msg2 : String) (reset2 : Option Nat) (pl2 : Option Json)
    (rid2 : Option String)
    (h1 : r1.status = 429) (h1r : r1.xRateLimitReset = some s) (h1d : pyIsDigit s = true)
    (h2 : r2.status = 403)
    (h2c : r2.xRateLimitRemaining = some "0" ∨
      (∃ fields, safe_json r2 = some (.obj fields) ∧
        strContainsSub (pyStr ((jsonFind fields "message").getD (.str ""))).toLower
          "rate limit" = true))
    (h3 : outs attempt = .response r3)
    (h3c : classifyResponse r3 = .rateLimited st msg (some re) pl rid)
    (h3s : re - now ≤ 15)
    (h4 : outs2 0 = .response r4)
    (h4c : classifyResponse r4 = .rateLimited st2 msg2 reset2 pl2 rid2)
    (h4n : reset2 = none ∨ ∃ re2, reset2 = some re2 ∧ 15 < re2 - now) :
    classifyResponse r1 = .rateLimited 429 "Rate limit hit (429)."
      (some (pyIntOfDigits s)) (safe_json r1) (req_id r1) ∧
    classifyResponse r2 = .rateLimited 403 "Rate limit exceeded (403)."
      (try_get_rate_limit_reset r2) (safe_json r2) (req_id r2) ∧
    requestGo c now outs (fuel + 1) attempt lastErr sleeps =
      requestGo c now outs fuel (attempt + 1) lastErr
        (sleeps ++ [((re - now : Nat) + 1 : ℚ)]) ∧
    request c now outs2 = ⟨.err (.rateLimit st2 msg2 reset2 pl2 rid2), []⟩ := by
  refine ⟨?_, ?_, ?_, ?_⟩
  · have hse : s.isEmpty = false := by
      have hd := h1d
      unfold pyIsDigit at hd
      simp only [Bool.and_eq_true] at hd
      simpa using hd.1
    simp [classifyResponse, h1, try_get_rate_limit_reset, h1r, hse, h1d]
  · have hrl : is_rate_limited r2 = true := by
      rcases h2c with hrem | ⟨fields, hsj, hmsg⟩
      · unfold is_rate_limited
        rw [hrem]
        simp [show pyIsDigit "0" = true from by decide,
          show pyIntOfDigits "0" = 0 from by decide]
      · unfold is_rate_limited
        rw [Bool.or_eq_true]
        right
        rw [hsj]
        exact hmsg
    simp [classifyResponse, h2, hrl]
  · simp only [requestGo, h3, h3c, h3s, if_true]
  · show requestGo c now outs2 (c.max_retries + 1) 0 none [] = _
    rcases h4n with rfl | ⟨re2, rfl, hgt⟩
    · simp only [requestGo, h4, h4c]
    · have hnle : ¬ (re2 - now ≤ 15) := by omega
      simp only [requestGo, h4, h4c, hnle, if_false]

/-- Witness for c1_rate_limit_handling: a 429 with reset "950", a 403 with
remaining "0", a short-wait 429 (reset 10 s away at now = 1000), and a
long-wait 429 (reset 100 s away). -/
theorem c1_rate_limit_handling_witness :
    classifyResponse { status := 429, xRateLimitReset := some "950" } =
      .rateLimited 429 "Rate limit hit (429)." (some (pyIntOfDigits "950"))
        (safe_json { status := 429, xRateLimitReset := some "950" })
        (req_id { status := 429, xRateLimitReset := some "950" }) ∧
    classifyResponse { status := 403, xRateLimitRemaining := some "0" } =
      .rateLimited 403 "Rate limit exceeded (403)."
        (try_get_rate_limit_reset { status := 403, xRateLimitRemaining := some "0" })
        (safe_json { status := 403, xRateLimitRemaining := some "0" })
        (req_id { status := 403, xRateLimitRemaining := some "0" }) ∧
    requestGo {} 1000 (fun _ => .response { status := 429, xRateLimitReset := some "1010" })
        (1 + 1) 2 none [] =
      requestGo {} 1000 (fun _ => .response { status := 429, xRateLimitReset := some "1010" })
        1 (2 + 1) none ([] ++ [((1010 - 1000 : Nat) + 1 : ℚ)]) ∧
    request {} 1000 (fun _ => .response { status := 429, xRateLimitReset := some "1100" }) =
      ⟨.err (.rateLimit 429 "Rate limit hit (429)." (some 1100) none none), []⟩ :=
  c1_rate_limit_handling {} 1000
    (fun _ => .response { status := 429, xRateLimitReset := some "1010" })
    (fun _ => .response { status := 429, xRateLimitReset := some "1100" })
    1 2 none []
    { status := 429, xRateLimitReset := some "950" }
    { status := 403, xRateLimitRemaining := some "0" }
    { status := 429, xRateLimitReset := some "1010" }
    { status := 429, xRateLimitReset := some "1100" }
    "950" 429 "Rate limit hit (429)." 1010 none none
    429 "Rate limit hit (429)." (some 1100) none none
    rfl rfl (by decide) rfl (Or.inl rfl) rfl rfl (by decide) rfl rfl
    (Or.inr ⟨1100, rfl, by decide⟩)

/-- C2 counterexample: with the default max_retries = 4 and every attempt
answered by a 429 whose disclosed reset is 0 seconds away (a short wait),
the `continue` of the rate-limit handler advances the bounded attempt
loop; after max_retries + 1 = 5 short-wait retries (5 sleeps of 1 second)
the loop falls through and request raises the defensive RuntimeError —
short-wait rate-limit retries alone do exhaust the attempt loop, so they
are not "free". -/
theorem c2_free_retry_counterexample :
    request {} 1000 (fun _ => .response { status := 429, xRateLimitReset := some "1000" }) =
      ⟨.err .runtime, List.replicate 5 (((1000 - 1000 : Nat) + 1 : ℚ))⟩ ∧
    (((1000 - 1000 : Nat) + 1 : ℚ)) = 1 :=
  ⟨rfl, by norm_num⟩

/-- C2 amended: a short-wait rate-limit retry consumes a slot of the
attempt loop like any other retry: the bound of max_retries + 1 counts all
attempts, and when every attempt is answered by a rate-limited response
whose disclosed reset is at most 15 seconds away, the loop performs
max_retries + 1 sleeps of (reset − now) + 1 seconds and then exhausts,
raising the defensive RuntimeError (no network/5xx error was recorded). -/
theorem c2_rate_limit_retries_consume_budget (c : GitHubRestClient) (now : Nat)
    (outs : Nat → AttemptOutcome) (r : Response) (re : Nat)
    (h : ∀ i, outs i = .response r)
    (hr : r.status = 429)
    (hreset : try_get_rate_limit_reset r = some re)
    (hshort : re - now ≤ 15) :
    request c now outs =
      ⟨.err .runtime, List.replicate (c.max_retries + 1) (((re - now : Nat) + 1 : ℚ))⟩ := by
  have hcls : classifyResponse r =
      .rateLimited r.status "Rate limit hit (429)." (some re) (safe_json r) (req_id r) := by
    simp [classifyResponse, hr, hreset]
  have key : ∀ fuel attempt sleeps, requestGo c now outs fuel attempt none sleeps =
      ⟨.err .runtime, sleeps ++ List.replicate fuel (((re - now : Nat) + 1 : ℚ))⟩ := by
    intro fuel
    induction fuel with
    | zero =>
      intro attempt sleeps
      simp [requestGo]
    | succ f ih =>
      intro attempt sleeps
      simp only [requestGo, h attempt, hcls, hshort, if_true]
      rw [ih]
      simp [List.replicate_succ]
  show requestGo c now outs (c.max_retries + 1) 0 none [] = _
  rw [key]
  simp

/-- Witness for c2_rate_limit_retries_consume_budget: every attempt is a
429 with reset 5 seconds away at now = 1000. -/
theorem c2_rate_limit_retries_consume_budget_witness :
    request {} 1000 (fun _ => .response { status := 429, xRateLimitReset := some "1005" }) =
      ⟨.err .runtime,
        List.replicate (({} : GitHubRestClient).max_retries + 1) (((1005 - 1000 : Nat) + 1 : ℚ))⟩ :=
  c2_rate_limit_retries_consume_budget {} 1000
    (fun _ => .response { status := 429, xRateLimitReset := some "1005" })
    { status := 429, xRateLimitReset := some "1005" } 1005
    (fun _ => rfl) rfl rfl (by decide)

/-- C3: a response with status in {500, 502, 503, 504} is retried while
budget remains, with a backoff sleep of min(max_backoff, base * 2^attempt)
seconds before the retry; when every attempt is such a response the error
propagates after exactly max_retries backoff sleeps; any other status
≥ 400 that is not rate-limited propagates on the first occurrence with
exactly one attempt and no sleeps; and with the default configuration
(max_retries = 4, base 0.8 s, cap 10 s) three consecutive 503 responses
followed by a 200 yield the 200 response after exactly 3 sleeps of 0.8 s,
1.6 s and 3.2 s. -/
theorem c3_transient_5xx_retry (c : GitHubRestClient) (now : Nat)
    (outs outsB outs2 : Nat → AttemptOutcome) (fuel attempt : Nat)
    (lastErr : Option GhError) (sleeps : List ℚ)
    (r rB r2 : Response)
    (h : outs attempt = .response r)
    (hs : r.status = 500 ∨ r.status = 502 ∨ r.status = 503 ∨ r.status = 504)
    (ha : attempt < c.max_retries)
    (hB : ∀ i, outsB i = .response rB)
    (hsB : rB.status = 500 ∨ rB.status = 502 ∨ rB.status = 503 ∨ rB.status = 504)
    (h2 : outs2 0 = .response r2)
    (hst2 : 400 ≤ r2.status)
    (hne2 : r2.status ≠ 429 ∧ r2.status ≠ 500 ∧ r2.status ≠ 502 ∧
      r2.status ≠ 503 ∧ r2.status ≠ 504)
    (hnrl2 : r2.status = 403 → is_rate_limited r2 = false) :
    requestGo c now outs (fuel + 1) attempt lastErr sleeps =
      requestGo c now outs fuel (attempt + 1) (some (.api (raise_for_status r)))
        (sleeps ++ [sleep_backoff attempt c.backoff_base_s c.max_backoff_s]) ∧
    request c now outsB =
      ⟨.err (.api (raise_for_status rB)),
        (List.range c.max_retries).map
          (fun a => sleep_backoff a c.backoff_base_s c.max_backoff_s)⟩ ∧
    request c now outs2 = ⟨.err (.api (raise_for_status r2)), []⟩ ∧
    request {} 1000
        (fun i => if i < 3 then .response { status := 503, text := "upstream error" }
                  else .response { status := 200, text := "ok" }) =
      ⟨.ok { status := 200, text := "ok" },
        [sleep_backoff 0 (4 / 5) 10, sleep_backoff 1 (4 / 5) 10, sleep_backoff 2 (4 / 5) 10]⟩ ∧
    sleep_backoff 0 ((4 : ℚ) / 5) 10 = 4 / 5 ∧
    sleep_backoff 1 ((4 : ℚ) / 5) 10 = 8 / 5 ∧
    sleep_backoff 2 ((4 : ℚ) / 5) 10 = 16 / 5 := by
  have hstat : ∀ r0 : Response, (raise_for_status r0).status = r0.status := by
    intro r0
    unfold raise_for_status
    split_ifs <;> rfl
  have hcls5 : ∀ r0 : Response,
      r0.status = 500 ∨ r0.status = 502 ∨ r0.status = 503 ∨ r0.status = 504 →
      classifyResponse r0 = .apiErr (raise_for_status r0) := by
    intro r0 hs0
    have e1 : r0.status ≠ 429 := by rcases hs0 with h5 | h5 | h5 | h5 <;> omega
    have e2 : ¬ (r0.status = 403 ∧ is_rate_limited r0 = true) := by
      rintro ⟨ha0, _⟩
      rcases hs0 with h5 | h5 | h5 | h5 <;> omega
    have e3 : r0.status ≥ 400 := by rcases hs0 with h5 | h5 | h5 | h5 <;> omega
    simp [classifyResponse, e1, e2, e3]
  refine ⟨?_, ?_, ?_, by rfl, by norm_num [sleep_backoff],
    by norm_num [sleep_backoff], by norm_num [sleep_backoff]⟩
  · have hcond : ((raise_for_status r).status = 500 ∨ (raise_for_status r).status = 502 ∨
        (raise_for_status r).status = 503 ∨ (raise_for_status r).status = 504) ∧
        attempt < c.max_retries := ⟨by rw [hstat]; exact hs, ha⟩
    simp [requestGo, h, hcls5 r hs, hcond]
  · have keyB : ∀ fuel0, ∀ attempt0, ∀ lastErr0 : Option GhError, ∀ sleeps0 : List ℚ,
        fuel0 + attempt0 = c.max_retries + 1 → 1 ≤ fuel0 →
        requestGo c now outsB fuel0 attempt0 lastErr0 sleeps0 =
          ⟨.err (.api (raise_for_status rB)),
            sleeps0 ++ (List.range' attempt0 (fuel0 - 1)).map
              (fun a => sleep_backoff a c.backoff_base_s c.max_backoff_s)⟩ := by
      intro fuel0
      induction fuel0 with
      | zero => intro attempt0 lastErr0 sleeps0 hsum hf; omega
      | succ f ih =>
        intro attempt0 lastErr0 sleeps0 hsum hf
        rcases Nat.eq_zero_or_pos f with rfl | hfpos
        · have hat : attempt0 = c.max_retries := by omega
          have hcond : ¬ (((raise_for_status rB).status = 500 ∨
              (raise_for_status rB).status = 502 ∨ (raise_for_status rB).status = 503 ∨
              (raise_for_status rB).status = 504) ∧ attempt0 < c.max_retries) := by
            rintro ⟨_, hlt⟩
            omega
          simp only [requestGo, hB attempt0, hcls5 rB hsB, hcond, if_false]
          simp
        · have hlt : attempt0 < c.max_retries := by omega
          have hcond : ((raise_for_status rB).status = 500 ∨
              (raise_for_status rB).status = 502 ∨ (raise_for_status rB).status = 503 ∨
              (raise_for_status rB).status = 504) ∧ attempt0 < c.max_retries :=
            ⟨by rw [hstat]; exact hsB, hlt⟩
          simp only [requestGo, hB attempt0, hcls5 rB hsB, hcond, if_true]
          rw [ih (attempt0 + 1) (some (.api (raise_for_status rB))) _ (by omega) (by omega)]
          have hrange : List.range' attempt0 ((f + 1) - 1) =
              attempt0 :: List.range' (attempt0 + 1) (f - 1) := by
            have h1 : (f + 1) - 1 = (f - 1) + 1 := by omega
            rw [h1, List.range'_succ]
          rw [hrange]
          simp
    show requestGo c now outsB (c.max_retries + 1) 0 none [] = _
    rw [keyB (c.max_retries + 1) 0 none [] (by omega) (by omega)]
    simp [List.range_eq_range']
  · have e1 : r2.status ≠ 429 := hne2.1
    have e2 : ¬ (r2.status = 403 ∧ is_rate_limited r2 = true) := by
      rintro ⟨ha0, hb0⟩
      rw [hnrl2 ha0] at hb0
      exact Bool.noConfusion hb0
    have hcls2 : classifyResponse r2 = .apiErr (raise_for_status r2) := by
      simp [classifyResponse, e1, e2, hst2]
    obtain ⟨_, e5a, e5b, e5c, e5d⟩ := hne2
    have hcond : ¬ (((raise_for_status r2).status = 500 ∨
        (raise_for_status r2).status = 502 ∨ (raise_for_status r2).status = 503 ∨
        (raise_for_status r2).status = 504) ∧ 0 < c.max_retries) := by
      rw [hstat]
      rintro ⟨h5, _⟩
      rcases h5 with h5 | h5 | h5 | h5
      · exact e5a h5
      · exact e5b h5
      · exact e5c h5
      · exact e5d h5
    show requestGo c now outs2 (c.max_retries + 1) 0 none [] = _
    simp only [requestGo, h2, hcls2, hcond, if_false]

/-- Witness for c3_transient_5xx_retry: a 502 at attempt 1 with budget
left, a uniform run of 503s, and a 404 propagating on first occurrence. -/
theorem c3_transient_5xx_retry_witness :
    requestGo {} 1000 (fun _ => .response { status := 502, text := "bad gateway" })
        (2 + 1) 1 none [] =
      requestGo {} 1000 (fun _ => .response { status := 502, text := "bad gateway" })
        2 (1 + 1) (some (.api (raise_for_status { status := 502, text := "bad gateway" })))
        ([] ++ [sleep_backoff 1 ({} : GitHubRestClient).backoff_base_s
          ({} : GitHubRestClient).max_backoff_s]) ∧
    request {} 1000 (fun _ => .response { status := 503, text := "unavailable" }) =
      ⟨.err (.api (raise_for_status { status := 503, text := "unavailable" })),
        (List.range ({} : GitHubRestClient).max_retries).map
          (fun a => sleep_backoff a ({} : GitHubRestClient).backoff_base_s
            ({} : GitHubRestClient).max_backoff_s)⟩ ∧
    request {} 1000 (fun _ => .response { status := 404, text := "missing" }) =
      ⟨.err (.api (raise_for_status { status := 404, text := "missing" })), []⟩ ∧
    request {} 1000
        (fun i => if i < 3 then .response { status := 503, text := "upstream error" }
                  else .response { status := 200, text := "ok" }) =
      ⟨.ok { status := 200, text := "ok" },
        [sleep_backoff 0 (4 / 5) 10, sleep_backoff 1 (4 / 5) 10, sleep_backoff 2 (4 / 5) 10]⟩ ∧
    sleep_backoff 0 ((4 : ℚ) / 5) 10 = 4 / 5 ∧
    sleep_backoff 1 ((4 : ℚ) / 5) 10 = 8 / 5 ∧
    sleep_backoff 2 ((4 : ℚ) / 5) 10 = 16 / 5 :=
  c3_transient_5xx_retry {} 1000
    (fun _ => .response { status := 502, text := "bad gateway" })
    (fun _ => .response { status := 503, text := "unavailable" })
    (fun _ => .response { status := 404, text := "missing" })
    2 1 none []
    { status := 502, text := "bad gateway" }
    { status := 503, text := "unavailable" }
    { status := 404, text := "missing" }
    rfl (Or.inr (Or.inl rfl)) (by decide)
    (fun _ => rfl) (Or.inr (Or.inr (Or.inl rfl)))
    rfl (by decide) (by decide) (by decide)

/-- C4: over any chain of pages linked by rel="next" relations (each page
a JSON array, each non-final page's Link header reaching the next page,
which — as the loop does — is fetched with the caller's query parameters
dropped, the absolute next URL being used verbatim), paginate yields
exactly the concatenation of the pages' elements in page order and
in-page order, and terminates after the first page without a next
relation. -/
theorem c4_paginate_concatenation
    (fetch : String → List (String × String) → Response)
    (url : String) (params : List (String × String))
    (pagess : List (List Json)) (fuel : Nat)
    (hchain : ChainOK fetch url params pagess)
    (hfuel : pagess.length ≤ fuel) :
    paginate fetch fuel url params = .done pagess.flatten := by
  have key : ∀ (ls : List (List Json)) (u : String) (ps : List (String × String))
      (acc : List Json) (fuel0 : Nat), ChainOK fetch u ps ls → ls.length ≤ fuel0 →
      paginateGo fetch fuel0 u ps acc = .done (acc ++ ls.flatten) := by
    intro ls
    induction ls with
    | nil =>
      intro u ps acc fuel0 hc
      exact absurd hc id
    | cons items rest ih =>
      intro u ps acc fuel0 hc hlen
      cases rest with
      | nil =>
        obtain ⟨hj, hn⟩ := hc
        cases fuel0 with
        | zero => simp at hlen
        | succ f =>
          simp only [paginateGo, hj, hn]
          simp
      | cons items2 rest2 =>
        obtain ⟨nxt, hj, hn, hne, hrest⟩ := hc
        cases fuel0 with
        | zero => simp at hlen
        | succ f =>
          have hnee : ¬ nxt.isEmpty = true := fun hh => hne ((String.isEmpty_iff nxt).1 hh)
          simp only [paginateGo, hj, hn, hnee, if_false]
          rw [ih nxt [] (acc ++ items) f hrest (by simpa using hlen)]
          simp
  exact key pagess url params [] fuel hchain hfuel

/-- Witness for c4_paginate_concatenation: a two-page chain with elements
1, 2 on the first page (which links to an absolute next URL) and 3 on the
second. -/
theorem c4_paginate_concatenation_witness :
    paginate
      (fun u _ =>
        if u = "https://api.x.com/a?page=2" then
          { status := 200, json := some (.arr [.num 3]) }
        else
          { status := 200, json := some (.arr [.num 1, .num 2]),
            linkHeader := some "<https://api.x.com/a?page=2>; rel=\"next\"" })
      2 "/a" [("per_page", "100")] =
      .done ([[Json.num 1, Json.num 2], [Json.num 3]].flatten) :=
  c4_paginate_concatenation
    (fun u _ =>
      if u = "https://api.x.com/a?page=2" then
        { status := 200, json := some (.arr [.num 3]) }
      else
        { status := 200, json := some (.arr [.num 1, .num 2]),
          linkHeader := some "<https://api.x.com/a?page=2>; rel=\"next\"" })
    "/a" [("per_page", "100")] [[Json.num 1, Json.num 2], [Json.num 3]] 2
    ⟨"https://api.x.com/a?page=2", rfl, rfl, by decide, rfl, rfl⟩
    (by decide)
